import Mathlib

/-!
Shallow embedding of the Dream_Booster job-application orchestrator
(src/dream_booster_job_manager.py and src/dream_booster_easy_applier.py).

Conventions of the embedding:
* Python strings are Lean `String`; the Python string operations used by the
  source (lower, strip, split on a space, substring test) are modelled by
  structural functions on the character list of the string, so that they
  evaluate on concrete inputs: `str.lower()` is `pyLower s.toList`,
  `str.strip()` is `pyStrip s.toList`, `str.split(" ")` is
  `pySplitOnSpace s.toList`, and the substring test `a in b` is
  `pySubstr a.toList b.toList`.
* Python float arithmetic on match scores is modelled with exact rationals.
* Fallible code is `Option`/`Except`: a `none`/`Except.error` result models a
  raised exception.
* File IO is modelled by a map from file key (for example "success") to the
  list of records that the JSON array on disk holds; appending to the JSON
  file is appending to that list.
* Randomness (random.choice, random.uniform) is modelled by an explicit
  random draw passed as an argument.
-/

/-- Python str.lower, on the character list (ASCII model, as in the
source data). -/
def pyLower (s : List Char) : List Char := s.map Char.toLower

/-- Python str.strip: drop whitespace from both ends. -/
def pyStrip (s : List Char) : List Char :=
  ((s.dropWhile Char.isWhitespace).reverse.dropWhile Char.isWhitespace).reverse

/-- Python str.split(" "): split on every single space, keeping empty
pieces, and returning one empty piece for the empty string. -/
def pySplitOnSpace : List Char → List (List Char)
  | [] => [[]]
  | c :: rest =>
    match pySplitOnSpace rest with
    | [] => []
    | w :: ws => if c = ' ' then [] :: w :: ws else (c :: w) :: ws

/-- Whether the first list starts the second one. -/
def pyIsPrefixAt : List Char → List Char → Bool
  | [], _ => true
  | _ :: _, [] => false
  | c :: cs, d :: ds => c = d && pyIsPrefixAt cs ds

/-- Python substring test: `needle in haystack`. The empty needle is a
substring of everything. -/
def pySubstr (needle : List Char) : List Char → Bool
  | [] => needle.isEmpty
  | c :: rest => pyIsPrefixAt needle (c :: rest) || pySubstr needle rest

/-- Record of one job listing, from src/job.py (dataclass Job). -/
structure Job where
  title : String
  company : String
  location : String
  link : String
  applyMethod : String
  description : String := ""
  summarizeJobDescription : String := ""
  pdfPath : String := ""
  recruiterLink : String := ""
deriving DecidableEq, Repr

/-- One element of an outcome JSON array, the dict built by
DreamBoosterJobManager.write_to_file (lines 191-198). -/
structure OutcomeRecord where
  company : String
  jobTitle : String
  link : String
  jobRecruiter : String
  jobLocation : String
  pdfPath : String
deriving DecidableEq, Repr

/-- The dict written by write_to_file for a job. The file-URI conversion of
pdf_path is filesystem behaviour and is abstracted to the raw path string. -/
def mkOutcomeRecord (job : Job) : OutcomeRecord :=
  { company := job.company
    jobTitle := job.title
    link := job.link
    jobRecruiter := job.recruiterLink
    jobLocation := job.location
    pdfPath := job.pdfPath }

/-- The outcome files, as a map from file key ("success", "failed",
"skipped") to the list of records the JSON array holds. -/
def Logs : Type := String → List OutcomeRecord

/-- DreamBoosterJobManager.write_to_file (lines 187-215): append the record
for the job to the JSON array file named by fileName; every other file is
untouched. -/
def writeToFile (logs : Logs) (job : Job) (fileName : String) : Logs :=
  fun f => if f = fileName then logs f ++ [mkOutcomeRecord job] else logs f

/-- The session parameters set by DreamBoosterJobManager.set_parameters
that the eligibility filter reads. -/
structure Params where
  companyBlacklist : List String
  titleBlacklist : List String
  applyOnceAtCompany : Bool
  matchThreshold : ℚ
  keywords : List String

/-- Title part of DreamBoosterJobManager.is_blacklisted (lines 299-300):
`any(word in job_title.lower().split(" ") for word in self.title_blacklist)`.
Note the blacklist entries themselves are compared verbatim, only the job
title is lowercased. -/
def titleBlacklistFlag (titleBlacklist : List String) (jobTitle : String) : Bool :=
  titleBlacklist.any (fun word =>
    (pySplitOnSpace (pyLower jobTitle.toList)).contains word.toList)

/-- Company part of DreamBoosterJobManager.is_blacklisted (line 301):
`company.strip().lower() in (word.strip().lower() for word in self.company_blacklist)`. -/
def companyBlacklistFlag (companyBlacklist : List String) (company : String) : Bool :=
  (companyBlacklist.map (fun word => pyLower (pyStrip word.toList))).contains
    (pyLower (pyStrip company.toList))

/-- DreamBoosterJobManager.is_blacklisted (lines 297-305): title word match,
or company match, or the link already being in seen_jobs. -/
def isBlacklisted (titleBlacklist companyBlacklist : List String)
    (seenJobs : List String) (jobTitle company link : String) : Bool :=
  titleBlacklistFlag titleBlacklist jobTitle
    || companyBlacklistFlag companyBlacklist company
    || seenJobs.contains link

/-- DreamBoosterJobManager.is_already_applied_to_job (lines 307-309):
`link in self.seen_jobs`. The title and company arguments are accepted and
ignored, as in the source. -/
def isAlreadyAppliedToJob (seenJobs : List String)
    (jobTitle company link : String) : Bool :=
  seenJobs.contains link

/-- DreamBoosterJobManager.is_already_applied_to_company (lines 311-327):
false when apply_once_at_company is off; otherwise scan the persisted
success log for a record whose company equals the company after strip and
lowercase on both sides. A missing or unparseable success.json reads as the
empty list. -/
def isAlreadyAppliedToCompany (applyOnceAtCompany : Bool)
    (successLog : List OutcomeRecord) (company : String) : Bool :=
  if !applyOnceAtCompany then false
  else successLog.any (fun r =>
    pyLower (pyStrip r.company.toList) == pyLower (pyStrip company.toList))

/-- The sum inside DreamBoosterJobManager.matches_job_criteria (line 183):
how many keywords occur, lowercased, as a substring of the lowercased title
or the lowercased description. -/
def keywordMatchCount (keywords : List String) (job : Job) : Nat :=
  (keywords.filter (fun keyword =>
    pySubstr (pyLower keyword.toList) (pyLower job.title.toList)
      || pySubstr (pyLower keyword.toList) (pyLower job.description.toList))).length

/-- DreamBoosterJobManager.matches_job_criteria (lines 182-185):
`match_score = sum(...) / len(keywords); return match_score >= threshold`.
With zero keywords the source raises ZeroDivisionError, modelled as `none`.
The float division is modelled exactly on rationals. -/
def matchesJobCriteria (keywords : List String) (matchThreshold : ℚ)
    (job : Job) : Option Bool :=
  if keywords.length = 0 then none
  else some (decide ((keywordMatchCount keywords job : ℚ) / (keywords.length : ℚ)
    ≥ matchThreshold))

/-- DreamBoosterJobManager.is_job_suitable (lines 161-180): the four checks
in source order, each failing check writing one "skipped" record and
returning false. A `none` result models the exception that escapes from
matches_job_criteria. The result pairs the boolean with the logs after the
call. -/
def isJobSuitable (p : Params) (seenJobs : List String) (logs : Logs)
    (job : Job) : Option (Bool × Logs) :=
  if isBlacklisted p.titleBlacklist p.companyBlacklist seenJobs
      job.title job.company job.link then
    some (false, writeToFile logs job "skipped")
  else if isAlreadyAppliedToJob seenJobs job.title job.company job.link then
    some (false, writeToFile logs job "skipped")
  else if isAlreadyAppliedToCompany p.applyOnceAtCompany (logs "success")
      job.company then
    some (false, writeToFile logs job "skipped")
  else
    match matchesJobCriteria p.keywords p.matchThreshold job with
    | none => none
    | some m => if !m then some (false, writeToFile logs job "skipped")
                else some (true, logs)

/-- Body of the per-job loop of DreamBoosterJobManager.apply_jobs
(lines 145-159). applyOk tells whether the easy_applier_component.job_apply
call returns normally (true) or raises (false); the except branch then
writes a "failed" record. `none` models an exception escaping the loop
(only is_job_suitable can raise outside the try block). -/
def applyOneJob (p : Params) (seenJobs : List String) (applyOk : Job → Bool)
    (logs : Logs) (job : Job) : Option Logs :=
  match isJobSuitable p seenJobs logs job with
  | none => none
  | some (false, logs1) => some logs1
  | some (true, logs1) =>
    if (["Continue", "Applied", "Apply"] : List String).contains job.applyMethod then
      some logs1
    else if applyOk job then some (writeToFile logs1 job "success")
    else some (writeToFile logs1 job "failed")

/-- DreamBoosterJobManager.apply_jobs (lines 142-159) over a list of jobs.
Returns the logs after the loop and whether it finished normally (false
means an exception escaped; writes made before it persist). -/
def applyJobs (p : Params) (seenJobs : List String) (applyOk : Job → Bool) :
    Logs → List Job → (Logs × Bool)
  | logs, [] => (logs, true)
  | logs, job :: rest =>
    match applyOneJob p seenJobs applyOk logs job with
    | none => (logs, false)
    | some logs1 => applyJobs p seenJobs applyOk logs1 rest

/-- The title-blacklist check as the specification words it: some blacklist
entry equals, case-insensitively, one whole space-separated word of the
title. Written from the words of the spec for comparison with
titleBlacklistFlag. -/
def specTitleBlacklisted (titleBlacklist : List String) (jobTitle : String) : Bool :=
  titleBlacklist.any (fun word =>
    (pySplitOnSpace (pyLower jobTitle.toList)).contains (pyLower word.toList))

/-- Empty outcome files. -/
def emptyLogs : Logs := fun _ => []

/-- random.uniform lo hi, modelled as lo + (hi - lo) * r where r is the
underlying uniform draw in the unit interval. -/
def pyUniform (lo hi r : ℚ) : ℚ := lo + (hi - lo) * r

/-- Trace of one run of the retry loop of job_apply: its outcome, how many
times _execute_job_apply was called, and the sleep durations between
attempts. -/
structure RetryTrace (E : Type) where
  outcome : Except E Unit
  attemptsMade : Nat
  sleeps : List ℚ

/-- The retry loop of DreamBoosterEasyApplier.job_apply (lines 88-99),
running from attempt index `attempt` with `maxRetries` total attempts.
`results i = none` means the i-th call of _execute_job_apply returns
normally, `results i = some e` means it raises e. `rand i` in the unit
interval drives the random.uniform(2, 5) backoff before retry i + 1. -/
def jobApplyGo {E : Type} (maxRetries : Nat) (results : Nat → Option E)
    (rand : Nat → ℚ) (attempt : Nat) : RetryTrace E :=
  if h : attempt < maxRetries then
    match results attempt with
    | none => ⟨Except.ok (), 1, []⟩
    | some e =>
      if attempt = maxRetries - 1 then ⟨Except.error e, 1, []⟩
      else
        let rest := jobApplyGo maxRetries results rand (attempt + 1)
        ⟨rest.outcome, rest.attemptsMade + 1, pyUniform 2 5 (rand attempt) :: rest.sleeps⟩
  else ⟨Except.ok (), 0, []⟩
termination_by maxRetries - attempt

/-- DreamBoosterEasyApplier.job_apply with self.max_retries = 3. -/
def jobApply {E : Type} (results : Nat → Option E) (rand : Nat → ℚ) :
    RetryTrace E :=
  jobApplyGo 3 results rand 0

/-- The URL test of check_for_premium_redirect:
`"linkedin.com/premium" in current_url`. -/
def isPremiumUrl (url : String) : Bool :=
  pySubstr "linkedin.com/premium".toList url.toList

/-- The message of the exception raised when the premium redirect cannot be
escaped. -/
def premiumAbortMessage : String :=
  "Redirected to Dream Booster Premium page and failed to return after max attempts. Job application aborted."

/-- Loop of DreamBoosterEasyApplier.check_for_premium_redirect
(lines 62-77). `afterNav i` is the URL the driver reports after the i-th
driver.get(job.link). Returns the number of re-navigations performed, or an
error for the raised exception. -/
def checkForPremiumRedirectGo (afterNav : Nat → String) (maxAttempts : Nat)
    (current : String) (attempts : Nat) : Except String Nat :=
  if h : isPremiumUrl current = true ∧ attempts < maxAttempts then
    checkForPremiumRedirectGo afterNav maxAttempts
      (afterNav (attempts + 1)) (attempts + 1)
  else if isPremiumUrl current then Except.error premiumAbortMessage
  else Except.ok attempts
termination_by maxAttempts - attempts

/-- DreamBoosterEasyApplier.check_for_premium_redirect with the default
max_attempts = 3, started from the URL the driver currently reports. -/
def checkForPremiumRedirect (startUrl : String) (afterNav : Nat → String) :
    Except String Nat :=
  checkForPremiumRedirectGo afterNav 3 startUrl 0

/-- DreamBoosterEasyApplier._handle_dropdown_fields (lines 389-397):
`if len(options) > 1: select(random.choice(options[1:]))`. The random draw
of random.choice is modelled by the index r into options[1:] (reduced
modulo its length); the returned value is the index into the full option
list of the selected option, `none` when nothing is selected. -/
def handleDropdownFields (options : List String) (r : Nat) : Option Nat :=
  if options.length > 1 then some (1 + r % (options.drop 1).length)
  else none

/-- One entry of answers.json: {question, answer}. -/
structure QAEntry where
  question : String
  answer : String
deriving DecidableEq, Repr

/-- DreamBoosterEasyApplier._get_answer_for_question (lines 413-421): scan
self.all_data for the first entry whose question equals the asked question
after lowercasing both; on a miss call gpt_answerer.answer_question. The
boolean of the result records whether the external answerer was invoked. -/
def getAnswerForQuestion (allData : List QAEntry) (gptAnswer : String → String)
    (question : String) : String × Bool :=
  match allData.find? (fun item =>
      pyLower item.question.toList == pyLower question.toList) with
  | some item => (item.answer, false)
  | none => (gptAnswer question, true)

/-- The mutable state of DreamBoosterJobManager that the claimed invariants
mention: the parameters, the seen_jobs list, and the outcome files. -/
structure ManagerState where
  params : Params
  seenJobs : List String
  logs : Logs

/-- DreamBoosterJobManager.set_parameters (lines 51-74): stores the
parameters and sets self.seen_jobs = []. The outcome files on disk are
whatever they already were. -/
def setParameters (p : Params) (logs : Logs) : ManagerState :=
  { params := p, seenJobs := [], logs := logs }

/-- The operations of DreamBoosterJobManager that run after set_parameters
and can read or write the session state. -/
inductive ManagerOp where
  | applyJobsOp (applyOk : Job → Bool) (jobs : List Job)
  | writeToFileOp (job : Job) (fileName : String)
  | isBlacklistedOp (jobTitle company link : String)
  | isAlreadyAppliedToJobOp (jobTitle company link : String)
  | isAlreadyAppliedToCompanyOp (company : String)
  | matchesJobCriteriaOp (job : Job)
  | isJobSuitableOp (job : Job)

/-- Effect of one manager operation on the session state. Query operations
return values but leave the state as it is; apply_jobs, write_to_file and
is_job_suitable update the outcome files. No operation writes seen_jobs. -/
def runOp (s : ManagerState) : ManagerOp → ManagerState
  | ManagerOp.applyJobsOp applyOk jobs =>
    { s with logs := (applyJobs s.params s.seenJobs applyOk s.logs jobs).1 }
  | ManagerOp.writeToFileOp job fileName =>
    { s with logs := writeToFile s.logs job fileName }
  | ManagerOp.isBlacklistedOp _ _ _ => s
  | ManagerOp.isAlreadyAppliedToJobOp _ _ _ => s
  | ManagerOp.isAlreadyAppliedToCompanyOp _ => s
  | ManagerOp.matchesJobCriteriaOp _ => s
  | ManagerOp.isJobSuitableOp job =>
    match isJobSuitable s.params s.seenJobs s.logs job with
    | none => s
    | some (_, logs1) => { s with logs := logs1 }

/-- Run a sequence of manager operations. -/
def runOps (s : ManagerState) : List ManagerOp → ManagerState
  | [] => s
  | op :: rest => runOps (runOp s op) rest

/-! ## Helper lemmas -/

/-- Pointwise description of writeToFile. -/
theorem writeToFile_apply (logs : Logs) (job : Job) (fileName f : String) :
    writeToFile logs job fileName f =
      if f = fileName then logs f ++ [mkOutcomeRecord job] else logs f := rfl

/-- With a nonempty keyword list, matches_job_criteria does not raise and
returns the threshold comparison of the exact match score. -/
theorem matchesJobCriteria_some (keywords : List String) (thr : ℚ)
    (job : Job) (h : keywords.length ≠ 0) :
    matchesJobCriteria keywords thr job =
      some (decide ((keywordMatchCount keywords job : ℚ) / (keywords.length : ℚ)
        ≥ thr)) := by
  unfold matchesJobCriteria
  simp [h]

/-- is_job_suitable either raises, or returns true leaving the files alone,
or returns false after appending one skipped record. -/
theorem isJobSuitable_cases (p : Params) (seen : List String) (logs : Logs)
    (job : Job) :
    isJobSuitable p seen logs job = none ∨
    isJobSuitable p seen logs job = some (true, logs) ∨
    isJobSuitable p seen logs job = some (false, writeToFile logs job "skipped") := by
  unfold isJobSuitable
  split
  · right; right; rfl
  · split
    · right; right; rfl
    · split
      · right; right; rfl
      · cases hm : matchesJobCriteria p.keywords p.matchThreshold job with
        | none => left; rfl
        | some m =>
          cases m with
          | false => right; right; rfl
          | true => right; left; rfl

/-- No manager operation changes seen_jobs. -/
theorem runOp_seenJobs (s : ManagerState) (op : ManagerOp) :
    (runOp s op).seenJobs = s.seenJobs := by
  cases op with
  | applyJobsOp applyOk jobs => rfl
  | writeToFileOp job fileName => rfl
  | isBlacklistedOp t c l => rfl
  | isAlreadyAppliedToJobOp t c l => rfl
  | isAlreadyAppliedToCompanyOp c => rfl
  | matchesJobCriteriaOp job => rfl
  | isJobSuitableOp job =>
    show (match isJobSuitable s.params s.seenJobs s.logs job with
      | none => s
      | some (_, logs1) => { s with logs := logs1 }).seenJobs = s.seenJobs
    cases isJobSuitable s.params s.seenJobs s.logs job with
    | none => rfl
    | some pr => rfl

/-- No sequence of manager operations changes seen_jobs. -/
theorem runOps_seenJobs (s : ManagerState) (ops : List ManagerOp) :
    (runOps s ops).seenJobs = s.seenJobs := by
  induction ops generalizing s with
  | nil => rfl
  | cons op rest ih => rw [runOps, ih, runOp_seenJobs]

/-! ## Claim theorems -/

/-- Claim C1 (code bug): the spec requires that an empty configured keyword
list must not raise and must treat every job as eligible, but
matches_job_criteria divides by len(keywords) unguarded, so keywords = []
raises ZeroDivisionError (modelled as none) for every threshold and job. -/
theorem matchesJobCriteria_empty_keywords_raises (matchThreshold : ℚ) (job : Job) :
    matchesJobCriteria [] matchThreshold job = none := rfl

/-- Claim C3 counterexample: with title_blacklist = ["Lead"] and title
"Lead Engineer", the entry equals a whole title word case-insensitively, so
the claim says the title is flagged, but the source compares the entry
verbatim against the lowercased title words and does not flag it. -/
theorem titleBlacklist_case_counterexample :
    ¬ (titleBlacklistFlag ["Lead"] "Lead Engineer" = true ↔
        specTitleBlacklisted ["Lead"] "Lead Engineer" = true) := by decide

/-- Claim C3 (amended): the blacklist check flags the title iff some
blacklist entry is verbatim equal to one whole space-separated word of the
lowercased title; matching is case-insensitive in the title only, and with
an all-lowercase entry the claimed examples behave as stated. -/
theorem titleBlacklistFlag_word_match (titleBlacklist : List String)
    (jobTitle : String) :
    (titleBlacklistFlag titleBlacklist jobTitle = true ↔
      ∃ w, w ∈ titleBlacklist ∧
        (pySplitOnSpace (pyLower jobTitle.toList)).contains w.toList = true) ∧
    titleBlacklistFlag ["lead"] "Team Leader Wanted" = false ∧
    titleBlacklistFlag ["lead"] "Lead Engineer" = true := by
  refine ⟨?_, by decide, by decide⟩
  unfold titleBlacklistFlag
  simp [List.any_eq_true]

/-- Claim C10: set_parameters initializes seen_jobs to the empty list, no
later manager operation ever adds to it, and consequently the seen-set
membership checks inside is_blacklisted and is_already_applied_to_job are
false for every job, so no intra-session deduplication by link occurs. -/
theorem seenJobs_spec (p : Params) (logs0 : Logs) (ops : List ManagerOp) :
    (runOps (setParameters p logs0) ops).seenJobs = [] ∧
    (∀ t c l, isAlreadyAppliedToJob
        (runOps (setParameters p logs0) ops).seenJobs t c l = false) ∧
    (∀ tb cb t c l,
      isBlacklisted tb cb (runOps (setParameters p logs0) ops).seenJobs t c l =
        (titleBlacklistFlag tb t || companyBlacklistFlag cb c)) := by
  have h : (runOps (setParameters p logs0) ops).seenJobs = [] := by
    rw [runOps_seenJobs]; rfl
  refine ⟨h, fun t c l => by rw [isAlreadyAppliedToJob, h]; rfl,
    fun tb cb t c l => ?_⟩
  rw [isBlacklisted, h]
  simp

/-- With a nonempty keyword list, is_job_suitable cannot raise. -/
theorem isJobSuitable_ne_none (p : Params) (seen : List String) (logs : Logs)
    (job : Job) (h : p.keywords.length ≠ 0) :
    isJobSuitable p seen logs job ≠ none := by
  unfold isJobSuitable
  split
  · simp
  · split
    · simp
    · split
      · simp
      · cases hm : matchesJobCriteria p.keywords p.matchThreshold job with
        | none =>
          exfalso
          unfold matchesJobCriteria at hm
          rw [if_neg h] at hm
          cases hm
        | some m => cases m <;> simp

/-- Claim C4 counterexample: with zero configured keywords and a job that
passes the first three checks, is_job_suitable does not return a boolean at
all; it raises (the ZeroDivisionError escaping matches_job_criteria). -/
theorem isJobSuitable_empty_keywords_counterexample :
    isJobSuitable ⟨[], [], false, 3/4, []⟩ [] emptyLogs
      ⟨"Data Analyst", "Initech", "Remote", "jobs/42", "Easy Apply", "", "", "", ""⟩
      = none := rfl

/-- Claim C4 (amended): provided the configured keyword list is nonempty,
is_job_suitable returns a boolean; when false it has appended exactly one
"skipped" record (written by the first failing check; the seen-link check
sits between the blacklist and company checks but can never fire first,
because the blacklist check already covers seen links), and when true it
has written nothing; true holds iff not blacklisted, not already applied to
the company, and the keyword criterion passes. -/
theorem isJobSuitable_frame (p : Params) (seen : List String) (logs : Logs)
    (job : Job) (h : p.keywords ≠ []) :
    (isJobSuitable p seen logs job = some (true, logs) ∨
     isJobSuitable p seen logs job = some (false, writeToFile logs job "skipped")) ∧
    (isJobSuitable p seen logs job = some (true, logs) ↔
      (isBlacklisted p.titleBlacklist p.companyBlacklist seen
          job.title job.company job.link = false ∧
       isAlreadyAppliedToCompany p.applyOnceAtCompany (logs "success")
          job.company = false ∧
       matchesJobCriteria p.keywords p.matchThreshold job = some true)) := by
  have hlen : p.keywords.length ≠ 0 := fun hh => h (List.length_eq_zero.mp hh)
  have hnn := isJobSuitable_ne_none p seen logs job hlen
  constructor
  · rcases isJobSuitable_cases p seen logs job with hc | hc | hc
    · exact absurd hc hnn
    · exact Or.inl hc
    · exact Or.inr hc
  constructor
  · intro ht
    unfold isJobSuitable at ht
    split at ht
    · simp at ht
    · split at ht
      · simp at ht
      · split at ht
        · simp at ht
        · rename_i h1 h2 h3
          cases hm : matchesJobCriteria p.keywords p.matchThreshold job with
          | none => rw [hm] at ht; cases ht
          | some m =>
            rw [hm] at ht
            cases m with
            | false => simp at ht
            | true =>
              exact ⟨by simpa using h1, by simpa using h3, rfl⟩
  · rintro ⟨hb, hcomp, hcrit⟩
    have hlink : seen.contains job.link = false := by
      unfold isBlacklisted at hb
      simp only [Bool.or_eq_false_iff] at hb
      exact hb.2
    unfold isJobSuitable
    rw [if_neg (by simp [hb]),
      if_neg (show ¬(isAlreadyAppliedToJob seen job.title job.company job.link = true) by
        unfold isAlreadyAppliedToJob; rw [hlink]; simp),
      if_neg (by simp [hcomp]), hcrit]
    rfl

/-- Claim C4 witness at a concrete input with one keyword. -/
theorem isJobSuitable_frame_witness :
    (isJobSuitable ⟨[], [], false, 0, ["sql"]⟩ [] emptyLogs
        ⟨"SQL Developer", "Acme", "NY", "jobs/7", "Easy Apply", "", "", "", ""⟩ =
        some (true, emptyLogs) ∨
     isJobSuitable ⟨[], [], false, 0, ["sql"]⟩ [] emptyLogs
        ⟨"SQL Developer", "Acme", "NY", "jobs/7", "Easy Apply", "", "", "", ""⟩ =
        some (false, writeToFile emptyLogs
          ⟨"SQL Developer", "Acme", "NY", "jobs/7", "Easy Apply", "", "", "", ""⟩
          "skipped")) ∧
    (isJobSuitable ⟨[], [], false, 0, ["sql"]⟩ [] emptyLogs
        ⟨"SQL Developer", "Acme", "NY", "jobs/7", "Easy Apply", "", "", "", ""⟩ =
        some (true, emptyLogs) ↔
      (isBlacklisted [] [] [] "SQL Developer" "Acme" "jobs/7" = false ∧
       isAlreadyAppliedToCompany false (emptyLogs "success") "Acme" = false ∧
       matchesJobCriteria ["sql"] 0
         ⟨"SQL Developer", "Acme", "NY", "jobs/7", "Easy Apply", "", "", "", ""⟩ =
         some true)) :=
  isJobSuitable_frame _ _ _ _ (by decide)

/-- Claim C2 counterexample: a job that passes the eligibility filter but
has apply_method "Applied" is processed without crashing and without any
outcome record: all three outcome files stay empty, so no outcome class
receives a record for it. -/
theorem applyOneJob_silent_drop_counterexample :
    applyOneJob ⟨[], [], false, 0, ["engineer"]⟩ [] (fun _ => true) emptyLogs
      ⟨"Software Engineer", "Globex", "NY", "jobs/9", "Applied", "", "", "", ""⟩
      = some emptyLogs ∧
    emptyLogs "success" = [] ∧ emptyLogs "failed" = [] ∧
    emptyLogs "skipped" = [] := by
  refine ⟨?_, rfl, rfl, rfl⟩
  have hc : matchesJobCriteria ["engineer"] 0
      ⟨"Software Engineer", "Globex", "NY", "jobs/9", "Applied", "", "", "", ""⟩ =
      some true := by
    rw [matchesJobCriteria_some _ _ _ (by decide)]
    rw [show keywordMatchCount ["engineer"]
      ⟨"Software Engineer", "Globex", "NY", "jobs/9", "Applied", "", "", "", ""⟩ = 1
      from rfl]
    simp only [Option.some.injEq, decide_eq_true_eq]
    norm_num
  have hs : isJobSuitable ⟨[], [], false, 0, ["engineer"]⟩ [] emptyLogs
      ⟨"Software Engineer", "Globex", "NY", "jobs/9", "Applied", "", "", "", ""⟩ =
      some (true, emptyLogs) := by
    unfold isJobSuitable
    rw [if_neg (by decide), if_neg (by decide), if_neg (by decide), hc]
    rfl
  unfold applyOneJob
  rw [hs]
  rfl

/-- Claim C2 (amended): for every job processed by the apply loop whose
processing does not raise, at most one outcome record is written: exactly
one "skipped" record when the job fails the eligibility filter; exactly one
"success" or "failed" record when it passes the filter and its apply_method
is not in {Continue, Applied, Apply}; and no record at all when it passes
the filter and its apply_method is in that set (such a job is silently
dropped). -/
theorem applyOneJob_at_most_one_record (p : Params) (seen : List String)
    (applyOk : Job → Bool) (logs : Logs) (job : Job) (logs1 : Logs)
    (h : applyOneJob p seen applyOk logs job = some logs1) :
    (isJobSuitable p seen logs job = some (false, writeToFile logs job "skipped") ∧
      logs1 = writeToFile logs job "skipped") ∨
    (isJobSuitable p seen logs job = some (true, logs) ∧
      (((["Continue", "Applied", "Apply"] : List String).contains job.applyMethod
          = true ∧ logs1 = logs) ∨
       ((["Continue", "Applied", "Apply"] : List String).contains job.applyMethod
          = false ∧ applyOk job = true ∧
          logs1 = writeToFile logs job "success") ∨
       ((["Continue", "Applied", "Apply"] : List String).contains job.applyMethod
          = false ∧ applyOk job = false ∧
          logs1 = writeToFile logs job "failed"))) := by
  unfold applyOneJob at h
  split at h
  · cases h
  · rename_i l1 hsplit
    rcases isJobSuitable_cases p seen logs job with hc | hc | hc
    · rw [hsplit] at hc; cases hc
    · rw [hsplit] at hc; simp at hc
    · rw [hsplit] at hc
      have hl1 : l1 = writeToFile logs job "skipped" := by
        simpa using hc
      left
      rw [hl1] at hsplit h
      exact ⟨hsplit, (Option.some.inj h).symm⟩
  · rename_i l1 hsplit
    rcases isJobSuitable_cases p seen logs job with hc | hc | hc
    · rw [hsplit] at hc; cases hc
    · rw [hsplit] at hc
      have hl1 : l1 = logs := by simpa using hc
      subst hl1
      right
      refine ⟨hsplit, ?_⟩
      by_cases hm : (["Continue", "Applied", "Apply"] : List String).contains
          job.applyMethod = true
      · rw [if_pos hm] at h
        exact Or.inl ⟨hm, (Option.some.inj h).symm⟩
      · have hm' : (["Continue", "Applied", "Apply"] : List String).contains
            job.applyMethod = false := by simpa using hm
        rw [if_neg hm] at h
        by_cases ha : applyOk job = true
        · rw [if_pos ha] at h
          exact Or.inr (Or.inl ⟨hm', ha, (Option.some.inj h).symm⟩)
        · have ha' : applyOk job = false := by simpa using ha
          rw [if_neg ha] at h
          exact Or.inr (Or.inr ⟨hm', ha', (Option.some.inj h).symm⟩)
    · rw [hsplit] at hc; simp at hc

/-- Claim C2 witness at a concrete blacklisted job: it receives exactly one
skipped record. -/
theorem applyOneJob_at_most_one_record_witness :
    (isJobSuitable ⟨[], ["lead"], false, 0, ["x"]⟩ [] emptyLogs
        ⟨"Lead Developer", "Hooli", "SF", "jobs/3", "External", "", "", "", ""⟩ =
        some (false, writeToFile emptyLogs
          ⟨"Lead Developer", "Hooli", "SF", "jobs/3", "External", "", "", "", ""⟩
          "skipped") ∧
      writeToFile emptyLogs
        ⟨"Lead Developer", "Hooli", "SF", "jobs/3", "External", "", "", "", ""⟩
        "skipped" =
        writeToFile emptyLogs
          ⟨"Lead Developer", "Hooli", "SF", "jobs/3", "External", "", "", "", ""⟩
          "skipped") ∨
    (isJobSuitable ⟨[], ["lead"], false, 0, ["x"]⟩ [] emptyLogs
        ⟨"Lead Developer", "Hooli", "SF", "jobs/3", "External", "", "", "", ""⟩ =
        some (true, emptyLogs) ∧
      (((["Continue", "Applied", "Apply"] : List String).contains "External"
          = true ∧
          writeToFile emptyLogs
            ⟨"Lead Developer", "Hooli", "SF", "jobs/3", "External", "", "", "", ""⟩
            "skipped" = emptyLogs) ∨
       ((["Continue", "Applied", "Apply"] : List String).contains "External"
          = false ∧ (fun (_ : Job) => true)
            ⟨"Lead Developer", "Hooli", "SF", "jobs/3", "External", "", "", "", ""⟩
            = true ∧
          writeToFile emptyLogs
            ⟨"Lead Developer", "Hooli", "SF", "jobs/3", "External", "", "", "", ""⟩
            "skipped" =
          writeToFile emptyLogs
            ⟨"Lead Developer", "Hooli", "SF", "jobs/3", "External", "", "", "", ""⟩
            "success") ∨
       ((["Continue", "Applied", "Apply"] : List String).contains "External"
          = false ∧ (fun (_ : Job) => true)
            ⟨"Lead Developer", "Hooli", "SF", "jobs/3", "External", "", "", "", ""⟩
            = false ∧
          writeToFile emptyLogs
            ⟨"Lead Developer", "Hooli", "SF", "jobs/3", "External", "", "", "", ""⟩
            "skipped" =
          writeToFile emptyLogs
            ⟨"Lead Developer", "Hooli", "SF", "jobs/3", "External", "", "", "", ""⟩
            "failed"))) :=
  applyOneJob_at_most_one_record ⟨[], ["lead"], false, 0, ["x"]⟩ []
    (fun _ => true) emptyLogs
    ⟨"Lead Developer", "Hooli", "SF", "jobs/3", "External", "", "", "", ""⟩
    (writeToFile emptyLogs
      ⟨"Lead Developer", "Hooli", "SF", "jobs/3", "External", "", "", "", ""⟩
      "skipped") rfl

/-- Claim C5: with apply_once_at_company on, any job whose company matches
(case- and surrounding-whitespace-insensitively) the company of a record in
the persisted success log is rejected by the eligibility filter with one
skipped record; with it off, the company-dedup check never blocks a job. -/
theorem companyDedup_spec :
    (∀ (p : Params) (seen : List String) (logs : Logs) (job : Job),
      p.applyOnceAtCompany = true →
      (∃ r ∈ logs "success",
        pyLower (pyStrip r.company.toList) = pyLower (pyStrip job.company.toList)) →
      isJobSuitable p seen logs job = some (false, writeToFile logs job "skipped")) ∧
    (∀ (successLog : List OutcomeRecord) (company : String),
      isAlreadyAppliedToCompany false successLog company = false) := by
  constructor
  · rintro p seen logs job h1 ⟨r, hr, hcompany⟩
    unfold isJobSuitable
    by_cases hb : isBlacklisted p.titleBlacklist p.companyBlacklist seen
        job.title job.company job.link = true
    · rw [if_pos hb]
    · rw [if_neg hb]
      by_cases hj : isAlreadyAppliedToJob seen job.title job.company job.link = true
      · rw [if_pos hj]
      · rw [if_neg hj]
        have hcomp : isAlreadyAppliedToCompany p.applyOnceAtCompany
            (logs "success") job.company = true := by
          unfold isAlreadyAppliedToCompany
          rw [h1]
          simp only [Bool.not_true, Bool.false_eq_true, if_false]
          rw [List.any_eq_true]
          exact ⟨r, hr, beq_iff_eq.mpr hcompany⟩
        rw [if_pos hcomp]
  · intro successLog company
    rfl

/-- Claim C5 witness: a prior success for "Acme" blocks a later job at
" ACME ". -/
theorem companyDedup_spec_witness :
    isJobSuitable ⟨[], [], true, 1, []⟩ []
      (fun f => if f = "success" then
        [⟨"Acme", "Old Role", "jobs/1", "", "NY", ""⟩] else [])
      ⟨"New Role", " ACME ", "LA", "jobs/2", "Easy Apply", "", "", "", ""⟩ =
      some (false, writeToFile
        (fun f => if f = "success" then
          [⟨"Acme", "Old Role", "jobs/1", "", "NY", ""⟩] else [])
        ⟨"New Role", " ACME ", "LA", "jobs/2", "Easy Apply", "", "", "", ""⟩
        "skipped") :=
  companyDedup_spec.1 ⟨[], [], true, 1, []⟩ []
    (fun f => if f = "success" then
      [⟨"Acme", "Old Role", "jobs/1", "", "NY", ""⟩] else [])
    ⟨"New Role", " ACME ", "LA", "jobs/2", "Easy Apply", "", "", "", ""⟩
    rfl
    ⟨⟨"Acme", "Old Role", "jobs/1", "", "NY", ""⟩, by decide, by decide⟩

/-- One successful attempt stops the retry loop at once. -/
theorem jobApplyGo_ok {E : Type} (m : Nat) (results : Nat → Option E)
    (rand : Nat → ℚ) (a : Nat) (hlt : a < m) (ha : results a = none) :
    jobApplyGo m results rand a = ⟨Except.ok (), 1, []⟩ := by
  rw [jobApplyGo]
  simp [hlt, ha]

/-- A failure on the last allowed attempt raises the exception. -/
theorem jobApplyGo_last_fail {E : Type} (m : Nat) (results : Nat → Option E)
    (rand : Nat → ℚ) (a : Nat) (e : E) (hlt : a < m) (ha : results a = some e)
    (hl : a = m - 1) :
    jobApplyGo m results rand a = ⟨Except.error e, 1, []⟩ := by
  rw [jobApplyGo, dif_pos hlt, ha]
  simp [hl]

/-- A failure before the last allowed attempt sleeps and retries. -/
theorem jobApplyGo_step {E : Type} (m : Nat) (results : Nat → Option E)
    (rand : Nat → ℚ) (a : Nat) (e : E) (hlt : a < m) (ha : results a = some e)
    (hne : a ≠ m - 1) :
    jobApplyGo m results rand a =
      ⟨(jobApplyGo m results rand (a + 1)).outcome,
       (jobApplyGo m results rand (a + 1)).attemptsMade + 1,
       pyUniform 2 5 (rand a) :: (jobApplyGo m results rand (a + 1)).sleeps⟩ := by
  rw [jobApplyGo]
  simp [hlt, ha, hne]

/-- The backoff drawn by random.uniform(2, 5) lies in the interval. -/
theorem pyUniform_bounds (r : ℚ) (h0 : 0 ≤ r) (h1 : r ≤ 1) :
    2 ≤ pyUniform 2 5 r ∧ pyUniform 2 5 r ≤ 5 := by
  unfold pyUniform
  constructor <;> nlinarith

/-- Claim C6: job_apply makes at most 3 attempts, returns as soon as one
attempt succeeds (after k prior failures it returns ok with k + 1 attempts
and k backoff sleeps, so the caller writes exactly one success record),
sleeps a randomized 2 to 5 seconds between attempts, and raises the last
exception only after all 3 attempts fail. -/
theorem jobApply_retry_spec {E : Type} (results : Nat → Option E)
    (rand : Nat → ℚ) (hr : ∀ i, 0 ≤ rand i ∧ rand i ≤ 1) :
    (jobApply results rand).attemptsMade ≤ 3 ∧
    (∀ d ∈ (jobApply results rand).sleeps, 2 ≤ d ∧ d ≤ 5) ∧
    (∀ k, k < 3 → results k = none → (∀ j, j < k → results j ≠ none) →
      (jobApply results rand).outcome = Except.ok () ∧
      (jobApply results rand).attemptsMade = k + 1 ∧
      (jobApply results rand).sleeps.length = k) ∧
    (∀ e0 e1 e2, results 0 = some e0 → results 1 = some e1 →
      results 2 = some e2 →
      (jobApply results rand).outcome = Except.error e2 ∧
      (jobApply results rand).attemptsMade = 3 ∧
      (jobApply results rand).sleeps.length = 2) := by
  cases h0 : results 0 with
  | none =>
    have ht : jobApply results rand = ⟨Except.ok (), 1, []⟩ :=
      jobApplyGo_ok 3 results rand 0 (by omega) h0
    rw [ht]
    refine ⟨?_, by simp, ?_, ?_⟩
    · show (1 : ℕ) ≤ 3
      norm_num
    · intro k hk hkn hprev
      rcases Nat.eq_zero_or_pos k with hk0 | hk0
      · subst hk0; exact ⟨rfl, rfl, rfl⟩
      · exact absurd h0 (hprev 0 hk0)
    · intro e0 e1 e2 ha _ _
      cases ha
  | some e0 =>
    cases h1 : results 1 with
    | none =>
      have ht : jobApply results rand =
          ⟨Except.ok (), 2, [pyUniform 2 5 (rand 0)]⟩ := by
        unfold jobApply
        rw [jobApplyGo_step 3 results rand 0 e0 (by omega) h0 (by omega),
          jobApplyGo_ok 3 results rand 1 (by omega) h1]
      rw [ht]
      refine ⟨?_, ?_, ?_, ?_⟩
      · show (2 : ℕ) ≤ 3
        norm_num
      · intro d hd
        simp only [List.mem_singleton] at hd
        subst hd
        exact pyUniform_bounds (rand 0) (hr 0).1 (hr 0).2
      · intro k hk hkn hprev
        interval_cases k
        · rw [h0] at hkn; cases hkn
        · exact ⟨rfl, rfl, rfl⟩
        · exact absurd h1 (hprev 1 (by omega))
      · intro e0 e1 e2 _ hb _
        cases hb
    | some e1 =>
      cases h2 : results 2 with
      | none =>
        have ht : jobApply results rand =
            ⟨Except.ok (), 3, [pyUniform 2 5 (rand 0), pyUniform 2 5 (rand 1)]⟩ := by
          unfold jobApply
          rw [jobApplyGo_step 3 results rand 0 e0 (by omega) h0 (by omega),
            jobApplyGo_step 3 results rand 1 e1 (by omega) h1 (by omega),
            jobApplyGo_ok 3 results rand 2 (by omega) h2]
        rw [ht]
        refine ⟨?_, ?_, ?_, ?_⟩
        · show (3 : ℕ) ≤ 3
          norm_num
        · intro d hd
          simp only [List.mem_cons, List.mem_singleton, List.not_mem_nil,
            or_false] at hd
          rcases hd with hd | hd <;> subst hd
          · exact pyUniform_bounds (rand 0) (hr 0).1 (hr 0).2
          · exact pyUniform_bounds (rand 1) (hr 1).1 (hr 1).2
        · intro k hk hkn hprev
          interval_cases k
          · rw [h0] at hkn; cases hkn
          · rw [h1] at hkn; cases hkn
          · exact ⟨rfl, rfl, rfl⟩
        · intro e0 e1 e2 _ _ hc
          cases hc
      | some e2 =>
        have ht : jobApply results rand =
            ⟨Except.error e2, 3,
              [pyUniform 2 5 (rand 0), pyUniform 2 5 (rand 1)]⟩ := by
          unfold jobApply
          rw [jobApplyGo_step 3 results rand 0 e0 (by omega) h0 (by omega),
            jobApplyGo_step 3 results rand 1 e1 (by omega) h1 (by omega),
            jobApplyGo_last_fail 3 results rand 2 e2 (by omega) h2 (by omega)]
        rw [ht]
        refine ⟨?_, ?_, ?_, ?_⟩
        · show (3 : ℕ) ≤ 3
          norm_num
        · intro d hd
          simp only [List.mem_cons, List.mem_singleton, List.not_mem_nil,
            or_false] at hd
          rcases hd with hd | hd <;> subst hd
          · exact pyUniform_bounds (rand 0) (hr 0).1 (hr 0).2
          · exact pyUniform_bounds (rand 1) (hr 1).1 (hr 1).2
        · intro k hk hkn hprev
          interval_cases k
          · rw [h0] at hkn; cases hkn
          · rw [h1] at hkn; cases hkn
          · rw [h2] at hkn; cases hkn
        · intro f0 f1 f2 _ _ hc
          have he := Option.some.inj hc
          subst he
          exact ⟨rfl, rfl, rfl⟩

/-- Claim C6 witness: first attempt fails, second succeeds. -/
theorem jobApply_retry_spec_witness :
    (jobApply (fun i => if i = 0 then some 7 else none)
        (fun _ => (1 : ℚ) / 2)).attemptsMade ≤ 3 :=
  (jobApply_retry_spec (fun i => if i = 0 then some 7 else none)
    (fun _ => (1 : ℚ) / 2) (fun _ => by norm_num)).1

/-- The redirect loop exits at once on a non-premium URL. -/
theorem premiumGo_exit (afterNav : Nat → String) (m : Nat) (u : String)
    (a : Nat) (hu : isPremiumUrl u = false) :
    checkForPremiumRedirectGo afterNav m u a = Except.ok a := by
  rw [checkForPremiumRedirectGo]
  simp [hu]

/-- The redirect loop re-navigates when the URL is premium and attempts
remain. -/
theorem premiumGo_nav (afterNav : Nat → String) (m : Nat) (u : String)
    (a : Nat) (hu : isPremiumUrl u = true) (ha : a < m) :
    checkForPremiumRedirectGo afterNav m u a =
      checkForPremiumRedirectGo afterNav m (afterNav (a + 1)) (a + 1) := by
  rw [checkForPremiumRedirectGo]
  simp [hu, ha]

/-- The redirect loop raises once the URL is premium and no attempts
remain. -/
theorem premiumGo_fail (afterNav : Nat → String) (m : Nat) (u : String)
    (a : Nat) (hu : isPremiumUrl u = true) (ha : ¬ a < m) :
    checkForPremiumRedirectGo afterNav m u a =
      Except.error premiumAbortMessage := by
  rw [checkForPremiumRedirectGo]
  simp [hu, ha]

/-- Claim C7: when the current URL matches the premium pattern the check
re-navigates to the job link, up to 3 times; if the URL never matches it
does nothing and returns normally; if it still matches after the 3 allowed
re-navigations the check raises, surfacing the error to the caller; and the
number of re-navigations never exceeds 3. -/
theorem premiumRedirect_spec (startUrl : String) (afterNav : Nat → String) :
    (isPremiumUrl startUrl = false →
      checkForPremiumRedirect startUrl afterNav = Except.ok 0) ∧
    (∀ n, checkForPremiumRedirect startUrl afterNav = Except.ok n → n ≤ 3) ∧
    (isPremiumUrl startUrl = true → isPremiumUrl (afterNav 1) = true →
      isPremiumUrl (afterNav 2) = true → isPremiumUrl (afterNav 3) = true →
      checkForPremiumRedirect startUrl afterNav =
        Except.error premiumAbortMessage) ∧
    (∀ k, 1 ≤ k → k ≤ 3 → isPremiumUrl startUrl = true →
      (∀ j, 1 ≤ j → j < k → isPremiumUrl (afterNav j) = true) →
      isPremiumUrl (afterNav k) = false →
      checkForPremiumRedirect startUrl afterNav = Except.ok k) := by
  cases hp0 : isPremiumUrl startUrl with
  | false =>
    have hres : checkForPremiumRedirect startUrl afterNav = Except.ok 0 :=
      premiumGo_exit afterNav 3 startUrl 0 hp0
    refine ⟨fun _ => hres, ?_, ?_, ?_⟩
    · intro n hn
      rw [hres] at hn
      have := Except.ok.inj hn
      omega
    · intro h; cases h
    · intro k _ _ h; cases h
  | true =>
    have h01 : checkForPremiumRedirectGo afterNav 3 startUrl 0 =
        checkForPremiumRedirectGo afterNav 3 (afterNav 1) 1 :=
      premiumGo_nav afterNav 3 startUrl 0 hp0 (by omega)
    cases hp1 : isPremiumUrl (afterNav 1) with
    | false =>
      have hres : checkForPremiumRedirect startUrl afterNav = Except.ok 1 := by
        unfold checkForPremiumRedirect
        rw [h01, premiumGo_exit afterNav 3 (afterNav 1) 1 hp1]
      refine ⟨?_, ?_, ?_, ?_⟩
      · intro h; cases h
      · intro n hn
        rw [hres] at hn
        have := Except.ok.inj hn
        omega
      · intro _ h; cases h
      · intro k hk1 hk3 _ hprev hk
        interval_cases k
        · exact hres
        · have := hprev 1 (by omega) (by omega)
          rw [hp1] at this; cases this
        · have := hprev 1 (by omega) (by omega)
          rw [hp1] at this; cases this
    | true =>
      have h12 : checkForPremiumRedirectGo afterNav 3 (afterNav 1) 1 =
          checkForPremiumRedirectGo afterNav 3 (afterNav 2) 2 :=
        premiumGo_nav afterNav 3 (afterNav 1) 1 hp1 (by omega)
      cases hp2 : isPremiumUrl (afterNav 2) with
      | false =>
        have hres : checkForPremiumRedirect startUrl afterNav = Except.ok 2 := by
          unfold checkForPremiumRedirect
          rw [h01, h12, premiumGo_exit afterNav 3 (afterNav 2) 2 hp2]
        refine ⟨?_, ?_, ?_, ?_⟩
        · intro h; cases h
        · intro n hn
          rw [hres] at hn
          have := Except.ok.inj hn
          omega
        · intro _ _ h; cases h
        · intro k hk1 hk3 _ hprev hk
          interval_cases k
          · rw [hp1] at hk; cases hk
          · exact hres
          · have := hprev 2 (by omega) (by omega)
            rw [hp2] at this; cases this
      | true =>
        have h23 : checkForPremiumRedirectGo afterNav 3 (afterNav 2) 2 =
            checkForPremiumRedirectGo afterNav 3 (afterNav 3) 3 :=
          premiumGo_nav afterNav 3 (afterNav 2) 2 hp2 (by omega)
        cases hp3 : isPremiumUrl (afterNav 3) with
        | false =>
          have hres : checkForPremiumRedirect startUrl afterNav =
              Except.ok 3 := by
            unfold checkForPremiumRedirect
            rw [h01, h12, h23, premiumGo_exit afterNav 3 (afterNav 3) 3 hp3]
          refine ⟨?_, ?_, ?_, ?_⟩
          · intro h; cases h
          · intro n hn
            rw [hres] at hn
            have := Except.ok.inj hn
            omega
          · intro _ _ _ h; cases h
          · intro k hk1 hk3 _ hprev hk
            interval_cases k
            · rw [hp1] at hk; cases hk
            · rw [hp2] at hk; cases hk
            · exact hres
        | true =>
          have hres : checkForPremiumRedirect startUrl afterNav =
              Except.error premiumAbortMessage := by
            unfold checkForPremiumRedirect
            rw [h01, h12, h23, premiumGo_fail afterNav 3 (afterNav 3) 3 hp3
              (by omega)]
          refine ⟨?_, ?_, fun _ _ _ _ => hres, ?_⟩
          · intro h; cases h
          · intro n hn
            rw [hres] at hn
            cases hn
          · intro k hk1 hk3 _ hprev hk
            interval_cases k
            · rw [hp1] at hk; cases hk
            · rw [hp2] at hk; cases hk
            · rw [hp3] at hk; cases hk

/-- Claim C7 witness: a non-premium URL is left alone. -/
theorem premiumRedirect_spec_witness :
    checkForPremiumRedirect "jobs/view/1" (fun _ => "jobs/view/1") =
      Except.ok 0 :=
  (premiumRedirect_spec "jobs/view/1" (fun _ => "jobs/view/1")).1 (by decide)

/-- Claim C8: with at least 2 options the dropdown filler selects an option
at an index in options[1:] (never index 0, the assumed placeholder), every
such index is reachable by some random draw, and with 1 or fewer options it
selects nothing. -/
theorem dropdown_spec (options : List String) (r : Nat) :
    (2 ≤ options.length → ∃ i, handleDropdownFields options r = some i ∧
      1 ≤ i ∧ i < options.length) ∧
    (2 ≤ options.length → ∀ j, 1 ≤ j → j < options.length →
      ∃ s, handleDropdownFields options s = some j) ∧
    (options.length ≤ 1 → handleDropdownFields options r = none) ∧
    handleDropdownFields options r ≠ some 0 := by
  have hdrop : (options.drop 1).length = options.length - 1 := by
    simp
  unfold handleDropdownFields
  rw [hdrop]
  refine ⟨?_, ?_, ?_, ?_⟩
  · intro h2
    have hpos : 0 < options.length - 1 := by omega
    have hlt : 1 < options.length := by omega
    rw [if_pos hlt]
    refine ⟨1 + r % (options.length - 1), rfl, by omega, ?_⟩
    have := Nat.mod_lt r hpos
    omega
  · intro h2 j hj1 hj2
    have hlt : 1 < options.length := by omega
    refine ⟨j - 1, ?_⟩
    rw [if_pos hlt]
    have hm : (j - 1) % (options.length - 1) = j - 1 :=
      Nat.mod_eq_of_lt (by omega)
    rw [hm]
    exact congrArg some (by omega)
  · intro h1
    rw [if_neg (by omega)]
  · intro hcontra
    by_cases hlt : 1 < options.length
    · rw [if_pos hlt] at hcontra
      have := Option.some.inj hcontra
      omega
    · rw [if_neg hlt] at hcontra
      cases hcontra

/-- Claim C8 witness: a single-option dropdown is left alone. -/
theorem dropdown_spec_witness :
    handleDropdownFields ["a"] 0 = none :=
  (dropdown_spec ["a"] 0).2.2.1 (by decide)

/-- Claim C9: when some stored entry matches the question case-insensitively
the lookup answers from the store (the external answerer is not invoked)
with the answer of a matching entry; when no stored entry matches it
returns the external answer and records the invocation. -/
theorem answerLookup_spec (allData : List QAEntry) (gptAnswer : String → String)
    (question : String) :
    ((∃ e ∈ allData, pyLower e.question.toList = pyLower question.toList) →
      (getAnswerForQuestion allData gptAnswer question).2 = false ∧
      ∃ e ∈ allData, pyLower e.question.toList = pyLower question.toList ∧
        (getAnswerForQuestion allData gptAnswer question).1 = e.answer) ∧
    ((∀ e ∈ allData, pyLower e.question.toList ≠ pyLower question.toList) →
      getAnswerForQuestion allData gptAnswer question =
        (gptAnswer question, true)) := by
  constructor
  · intro hex
    cases hf : allData.find? (fun item =>
        pyLower item.question.toList == pyLower question.toList) with
    | none =>
      exfalso
      obtain ⟨e, he, heq⟩ := hex
      have hnone := List.find?_eq_none.mp hf e he
      exact hnone (beq_iff_eq.mpr heq)
    | some item =>
      have hp := List.find?_some hf
      have hmem := List.mem_of_find?_eq_some hf
      unfold getAnswerForQuestion
      rw [hf]
      exact ⟨rfl, ⟨item, hmem, beq_iff_eq.mp hp, rfl⟩⟩
  · intro hall
    cases hf : allData.find? (fun item =>
        pyLower item.question.toList == pyLower question.toList) with
    | none =>
      unfold getAnswerForQuestion
      rw [hf]
    | some item =>
      exfalso
      have hp := List.find?_some hf
      have hmem := List.mem_of_find?_eq_some hf
      exact hall item hmem (beq_iff_eq.mp hp)

/-- Claim C9 witness: a case-insensitive hit never invokes the external
answerer. -/
theorem answerLookup_spec_witness :
    (getAnswerForQuestion [⟨"Years of EXPERIENCE", "5"⟩] (fun _ => "gpt")
      "years of experience").2 = false :=
  ((answerLookup_spec [⟨"Years of EXPERIENCE", "5"⟩] (fun _ => "gpt")
    "years of experience").1
    ⟨⟨"Years of EXPERIENCE", "5"⟩, by decide, by decide⟩).1
